import Mathlib

/-!
Verification of the NASA impact calculator (`src/web.py`).

The Python module holds one mock asteroid record, a lookup function
`find_mock_asteroid_data`, the impact-energy calculator
`calculate_impact_energy`, and a Flask route `calculate_impact_route`.
Python floats are modelled as real numbers; the JSON-like dictionaries are
modelled as structures whose possibly-missing keys are `Option` fields, and
string-typed numeric content is modelled by `FieldVal` (a value that
`float(...)` either converts or rejects).  String formatting of the report
(`f"{x:.2e}"` and friends) is presentation only; the report carries the raw
quantities the format strings would render.
-/

namespace NasaImpact

/-- A value stored in one numeric field of the JSON-like asteroid record.
In `web.py` these fields hold strings such as `'320.0'`; `num x` models
content that Python `float(...)` converts to the value `x`, and `nonNum s`
models content on which `float(...)` raises `ValueError`. -/
inductive FieldVal where
  | num (x : ℝ)
  | nonNum (s : String)

/-- The `asteroid_data['estimated_diameter']['meters']` sub-dictionary
(the two key accesses are collapsed into one optional field). -/
structure EstimatedDiameterMeters where
  estimated_diameter_min : Option FieldVal
  estimated_diameter_max : Option FieldVal

/-- The `close_approach['relative_velocity']` sub-dictionary. -/
structure RelativeVelocity where
  kilometers_per_second : Option FieldVal

/-- One entry of `close_approach_data`. -/
structure CloseApproachEntry where
  relative_velocity : Option RelativeVelocity
  miss_distance_kilometers : Option FieldVal

/-- An asteroid record as consumed by `calculate_impact_energy`: keys that
the code reads with `.get` or plain indexing and that may be absent are
`Option` fields. -/
structure AsteroidRecord where
  name : Option String
  neo_reference_id : String
  is_potentially_hazardous_asteroid : Option Bool
  estimated_diameter : Option EstimatedDiameterMeters
  close_approach_data : List CloseApproachEntry

/-- `JOULES_PER_MEGATON = 4.184e15` from `web.py`. -/
noncomputable def JOULES_PER_MEGATON : ℝ := 4.184e15

/-- The `DENSITIES` preset table from `web.py`. -/
noncomputable def DENSITIES : List (String × ℝ) :=
  [("C-type (Carbonaceous)", 1300),
   ("S-type (Stony)", 2700),
   ("M-type (Metallic)", 5000),
   ("Rocky", 3000)]

/-- `DEFAULT_DENSITY = DENSITIES["Rocky"]` from `web.py`. -/
noncomputable def DEFAULT_DENSITY : ℝ := 3000

/-- The `name` value of `MOCK_ASTEROID_DATA`. -/
def mock_name : String := "99942 Apophis"

/-- The `MOCK_ASTEROID_DATA` record from `web.py` (numeric strings such as
`'320.0'` are modelled as the values `float` converts them to). -/
noncomputable def MOCK_ASTEROID_DATA : AsteroidRecord :=
  { name := some mock_name,
    neo_reference_id := "2000042",
    is_potentially_hazardous_asteroid := some true,
    estimated_diameter := some
      { estimated_diameter_min := some (FieldVal.num 320.0),
        estimated_diameter_max := some (FieldVal.num 400.0) },
    close_approach_data :=
      [{ relative_velocity := some { kilometers_per_second := some (FieldVal.num 7.42) },
         miss_distance_kilometers := some (FieldVal.num 31000.0) }] }

/-- Python `str.strip()`: remove leading and trailing whitespace characters. -/
def py_strip (l : List Char) : List Char :=
  ((l.dropWhile Char.isWhitespace).reverse.dropWhile Char.isWhitespace).reverse

/-- Python `str.upper()` (basic-latin letters, which covers the identifiers
involved). -/
def py_upper (l : List Char) : List Char := l.map Char.toUpper

/-- Python `str.replace(c, '')` for a one-character pattern: drop every
occurrence of the character `c`. -/
def remove_char (c : Char) (l : List Char) : List Char := l.filter (fun a => a != c)

/-- Python `str.replace(c, r)` for one-character pattern and replacement. -/
def replace_char (c r : Char) (l : List Char) : List Char :=
  l.map (fun a => if a = c then r else a)

/-- `asteroid_name.strip().upper().replace('(', '').replace(')', '').replace('-', ' ')`
from line 40 of `web.py`. -/
def normalize_name (s : String) : String :=
  ⟨replace_char '-' ' ' (remove_char ')' (remove_char '(' (py_upper (py_strip s.data))))⟩

/-- `find_mock_asteroid_data` from `web.py`: normalize the query and compare
it against the mock record's upper-cased name and its catalog id. -/
noncomputable def find_mock_asteroid_data (asteroid_name : String) : Option AsteroidRecord :=
  let normalized_name := normalize_name asteroid_name
  let mock_name_normalized : String := ⟨py_upper mock_name.data⟩
  let mock_id := MOCK_ASTEROID_DATA.neo_reference_id
  if normalized_name = mock_name_normalized ∨ normalized_name = mock_id then
    some MOCK_ASTEROID_DATA
  else
    none

/-- The calculator's output, lines 75-85 of `web.py`, carrying the raw
quantities behind the formatted display strings. -/
structure ImpactReport where
  name : String
  average_diameter_m : ℝ
  relative_velocity_km_s : ℝ
  assumed_density_kg_m3 : ℝ
  calculated_mass_kg : ℝ
  kinetic_energy_joules : ℝ
  impact_energy_megatons_tnt : ℝ
  is_potentially_hazardous : Bool
  interpretation : String

/-- Result of `calculate_impact_energy` (and of the route): either the
report dictionary or the `{"error": msg}` dictionary. -/
inductive ImpactResult where
  | ok (report : ImpactReport)
  | error (msg : String)

/-- The severity ladder of lines 66-73 of `web.py`: strict greater-than
thresholds, evaluated top-down. -/
noncomputable def interpretation_of (energy_megatons : ℝ) : String :=
  if energy_megatons > 100 then
    "Devastating impact event, comparable to large scale nuclear war scenarios. Mitigation is critical."
  else if energy_megatons > 10 then
    "Major regional impact event, capable of causing widespread destruction and global climate effects."
  else if energy_megatons > 1 then
    "Powerful impact, capable of leveling a major metropolitan area (like the Tunguska event)."
  else
    "Smaller impact, likely resulting in localized damage or an atmospheric explosion (airburst)."

/-- The body of the `try:` block of `calculate_impact_energy`
(lines 52-85 of `web.py`), with each Python exception surfaced as an
`Except.error` carrying a description of the raising operation.  The
`[-1]` index of `close_approach_data` is the last element when the list is
non-empty and raises `IndexError` when it is empty. -/
noncomputable def calculate_impact_energy_body (asteroid_data : AsteroidRecord)
    (density : ℝ) : Except String ImpactReport :=
  match asteroid_data.estimated_diameter with
  | none => .error "KeyError: estimated_diameter"
  | some estimated_diameter =>
    match estimated_diameter.estimated_diameter_min with
    | none => .error "KeyError: estimated_diameter_min"
    | some (.nonNum s) => .error ("ValueError: could not convert string to float: " ++ s)
    | some (.num min_d) =>
      match estimated_diameter.estimated_diameter_max with
      | none => .error "KeyError: estimated_diameter_max"
      | some (.nonNum s) => .error ("ValueError: could not convert string to float: " ++ s)
      | some (.num max_d) =>
        let avg_diameter := (min_d + max_d) / 2
        let avg_radius := avg_diameter / 2
        match asteroid_data.close_approach_data.getLast? with
        | none => .error "IndexError: list index out of range"
        | some close_approach =>
          match close_approach.relative_velocity with
          | none => .error "KeyError: relative_velocity"
          | some relative_velocity =>
            match relative_velocity.kilometers_per_second with
            | none => .error "KeyError: kilometers_per_second"
            | some (.nonNum s) => .error ("ValueError: could not convert string to float: " ++ s)
            | some (.num relative_velocity_km_s) =>
              let V_m_s := relative_velocity_km_s * 1000
              let mass_kg := density * (4 / 3) * Real.pi * avg_radius ^ 3
              let kinetic_energy_joules := 0.5 * mass_kg * V_m_s ^ 2
              let energy_megatons := kinetic_energy_joules / JOULES_PER_MEGATON
              .ok
                { name := asteroid_data.name.getD "N/A",
                  average_diameter_m := avg_diameter,
                  relative_velocity_km_s := relative_velocity_km_s,
                  assumed_density_kg_m3 := density,
                  calculated_mass_kg := mass_kg,
                  kinetic_energy_joules := kinetic_energy_joules,
                  impact_energy_megatons_tnt := energy_megatons,
                  is_potentially_hazardous :=
                    asteroid_data.is_potentially_hazardous_asteroid.getD false,
                  interpretation := interpretation_of energy_megatons }

/-- `calculate_impact_energy` from `web.py`: the `try:` body, with any
exception caught and turned into the `{"error": ...}` dictionary. -/
noncomputable def calculate_impact_energy (asteroid_data : AsteroidRecord)
    (density : ℝ) : ImpactResult :=
  match calculate_impact_energy_body asteroid_data density with
  | .ok result => ImpactResult.ok result
  | .error e =>
    ImpactResult.error ("An unexpected error occurred during calculation: " ++ e)

/-- The message of the not-found branch of the route (line 113 of `web.py`). -/
def not_found_message (asteroid_name : String) : String :=
  "Asteroid '" ++ asteroid_name ++ "' not found. Try '99942 Apophis'."

/-- The message wrapper of the calculator's except-branch (line 88 of
`web.py`). -/
def calculation_error_message (e : String) : String :=
  "An unexpected error occurred during calculation: " ++ e

/-- The `/calculate_impact` route (lines 100-118 of `web.py`).  The density
form value arrives here as the outcome of Python `float(density_value)`:
`some d` when parsing succeeded, `none` when the value was absent
(`TypeError`) or unparsable (`ValueError`); the route then falls back to
`DEFAULT_DENSITY`. -/
noncomputable def calculate_impact_route (asteroid_name : String)
    (density_parse : Option ℝ) : ImpactResult :=
  let selected_density := match density_parse with
    | some d => d
    | none => DEFAULT_DENSITY
  match find_mock_asteroid_data asteroid_name with
  | none => ImpactResult.error (not_found_message asteroid_name)
  | some asteroid_data => calculate_impact_energy asteroid_data selected_density

/-- Index of the severity band selected by `interpretation_of`: 0 is the
`Smaller impact` band, 3 the `Devastating` band. -/
noncomputable def severityBand (energy_megatons : ℝ) : ℕ :=
  if energy_megatons > 100 then 3
  else if energy_megatons > 10 then 2
  else if energy_megatons > 1 then 1
  else 0

/-- The report prescribed by the spec's algorithm (section 4.2, steps 1-6)
for a record whose diameters parse to `min_d` and `max_d` and whose last
close approach has velocity `vel` km/s; the functional-correctness claims
state that `calculate_impact_energy` produces exactly this report. -/
noncomputable def spec_report (r : AsteroidRecord) (density min_d max_d vel : ℝ) :
    ImpactReport :=
  let avgDiameter := (min_d + max_d) / 2
  let avgRadius := avgDiameter / 2
  let velocity_m_s := vel * 1000
  let mass := density * (4 / 3) * Real.pi * avgRadius ^ 3
  let kineticEnergyJoules := 0.5 * mass * velocity_m_s ^ 2
  let energyMegatonsTNT := kineticEnergyJoules / JOULES_PER_MEGATON
  { name := r.name.getD "N/A",
    average_diameter_m := avgDiameter,
    relative_velocity_km_s := vel,
    assumed_density_kg_m3 := density,
    calculated_mass_kg := mass,
    kinetic_energy_joules := kineticEnergyJoules,
    impact_energy_megatons_tnt := energyMegatonsTNT,
    is_potentially_hazardous := r.is_potentially_hazardous_asteroid.getD false,
    interpretation := interpretation_of energyMegatonsTNT }

/- Helper lemmas shared by the claim theorems. -/

/-- Evaluation of the calculator on a record whose relevant fields are all
present and numeric. -/
theorem calculate_ok (r : AsteroidRecord) (ed : EstimatedDiameterMeters)
    (ca : CloseApproachEntry) (rv : RelativeVelocity)
    (density min_d max_d vel : ℝ)
    (h1 : r.estimated_diameter = some ed)
    (h2 : ed.estimated_diameter_min = some (FieldVal.num min_d))
    (h3 : ed.estimated_diameter_max = some (FieldVal.num max_d))
    (h4 : r.close_approach_data.getLast? = some ca)
    (h5 : ca.relative_velocity = some rv)
    (h6 : rv.kilometers_per_second = some (FieldVal.num vel)) :
    calculate_impact_energy r density =
      ImpactResult.ok (spec_report r density min_d max_d vel) := by
  unfold calculate_impact_energy calculate_impact_energy_body spec_report
  simp only [h1, h2, h3, h4, h5, h6]

/-- `Char.toUpper` is idempotent. -/
theorem toUpper_toUpper (c : Char) : (c.toUpper).toUpper = c.toUpper := by
  simp only [Char.toUpper]
  by_cases h : c.toNat ≥ 97 ∧ c.toNat ≤ 122
  · rw [if_pos h]
    obtain ⟨h1, h2⟩ := h
    set n := c.toNat with hn
    interval_cases n <;> decide
  · rw [if_neg h, if_neg h]

/-- The severity band index never decreases along the energy axis. -/
theorem severityBand_mono {a b : ℝ} (h : a ≤ b) : severityBand a ≤ severityBand b := by
  unfold severityBand
  split_ifs <;> first | omega | (exfalso; linarith)

/-- A report produced by the calculator body carries the interpretation of
its own megaton energy. -/
theorem body_ok_interpretation (r : AsteroidRecord) (d : ℝ) (rep : ImpactReport)
    (h : calculate_impact_energy_body r d = Except.ok rep) :
    rep.interpretation = interpretation_of rep.impact_energy_megatons_tnt := by
  unfold calculate_impact_energy_body at h
  repeat' split at h
  all_goals first
    | exact Except.noConfusion h
    | (injection h with h; subst h; rfl)

/-- Claim C2: the severity classification uses strict greater-than
thresholds evaluated top-down, first match wins: above 100 MT the
`Devastating` label, above 10 the `Major regional` label, above 1 the
`Powerful` label, otherwise the `Smaller` label; an energy of exactly 1,
10 or 100 MT falls into the lower band (first three conjuncts applied at
the boundary), any value strictly above a threshold falls into the next
band up, and the interpretation stored in a report of
`calculate_impact_energy` is exactly this classification of the report's
megaton energy. -/
theorem severity_thresholds_strict :
    (∀ e : ℝ, e ≤ 1 → interpretation_of e =
      "Smaller impact, likely resulting in localized damage or an atmospheric explosion (airburst).") ∧
    (∀ e : ℝ, 1 < e → e ≤ 10 → interpretation_of e =
      "Powerful impact, capable of leveling a major metropolitan area (like the Tunguska event).") ∧
    (∀ e : ℝ, 10 < e → e ≤ 100 → interpretation_of e =
      "Major regional impact event, capable of causing widespread destruction and global climate effects.") ∧
    (∀ e : ℝ, 100 < e → interpretation_of e =
      "Devastating impact event, comparable to large scale nuclear war scenarios. Mitigation is critical.") ∧
    (∀ (r : AsteroidRecord) (d : ℝ) (rep : ImpactReport),
      calculate_impact_energy r d = ImpactResult.ok rep →
      rep.interpretation = interpretation_of rep.impact_energy_megatons_tnt) := by
  refine ⟨?_, ?_, ?_, ?_, ?_⟩
  · intro e h
    unfold interpretation_of
    rw [if_neg (not_lt.mpr (by linarith)), if_neg (not_lt.mpr (by linarith)),
      if_neg (not_lt.mpr (by linarith))]
  · intro e h1 h2
    unfold interpretation_of
    rw [if_neg (not_lt.mpr (by linarith)), if_neg (not_lt.mpr (by linarith)), if_pos h1]
  · intro e h1 h2
    unfold interpretation_of
    rw [if_neg (not_lt.mpr (by linarith)), if_pos h1]
  · intro e h1
    unfold interpretation_of
    rw [if_pos h1]
  · intro r d rep h
    unfold calculate_impact_energy at h
    cases hb : calculate_impact_energy_body r d with
    | ok rep2 =>
      rw [hb] at h
      injection h with h
      subst h
      exact body_ok_interpretation r d rep2 hb
    | error e =>
      rw [hb] at h
      exact ImpactResult.noConfusion h

/-- Witness for C2: the classification evaluated at the inclusive
boundaries 1, 10 and 100 MT (each falls into the lower band) and just
above the top threshold. -/
theorem severity_thresholds_strict_witness :
    ((1:ℝ) ≤ 1 ∧ interpretation_of 1 =
      "Smaller impact, likely resulting in localized damage or an atmospheric explosion (airburst).") ∧
    ((1:ℝ) < 10 ∧ (10:ℝ) ≤ 10 ∧ interpretation_of 10 =
      "Powerful impact, capable of leveling a major metropolitan area (like the Tunguska event).") ∧
    ((10:ℝ) < 100 ∧ (100:ℝ) ≤ 100 ∧ interpretation_of 100 =
      "Major regional impact event, capable of causing widespread destruction and global climate effects.") ∧
    ((100:ℝ) < 101 ∧ interpretation_of 101 =
      "Devastating impact event, comparable to large scale nuclear war scenarios. Mitigation is critical.") :=
  ⟨⟨le_refl 1, severity_thresholds_strict.1 1 (le_refl 1)⟩,
   ⟨by norm_num, le_refl 10, severity_thresholds_strict.2.1 10 (by norm_num) (le_refl 10)⟩,
   ⟨by norm_num, le_refl 100, severity_thresholds_strict.2.2.1 100 (by norm_num) (le_refl 100)⟩,
   ⟨by norm_num, severity_thresholds_strict.2.2.2.1 101 (by norm_num)⟩⟩

/-- Claim C1: for every record with numeric diameter fields and a non-empty
close-approach sequence and every density, `calculate_impact_energy`
computes the averaged diameter and radius, the last entry's velocity
converted to m/s, the sphere mass, the kinetic energy and the megaton
energy exactly as the spec's six steps prescribe (`spec_report`); only the
last close-approach entry matters; and on the mock Apophis record with
density 3000 the result has average diameter 360 m, average radius 180 m,
mass about 7.33e10 kg, kinetic energy about 2.02e18 J, about 482.5 MT, and
the `Devastating` interpretation. -/
theorem calculate_impact_energy_spec :
    (∀ (r : AsteroidRecord) (ed : EstimatedDiameterMeters) (ca : CloseApproachEntry)
       (rv : RelativeVelocity) (density min_d max_d vel : ℝ),
       r.estimated_diameter = some ed →
       ed.estimated_diameter_min = some (FieldVal.num min_d) →
       ed.estimated_diameter_max = some (FieldVal.num max_d) →
       r.close_approach_data.getLast? = some ca →
       ca.relative_velocity = some rv →
       rv.kilometers_per_second = some (FieldVal.num vel) →
       calculate_impact_energy r density =
         ImpactResult.ok (spec_report r density min_d max_d vel)) ∧
    (∀ (r : AsteroidRecord) (density : ℝ) (l1 l2 : List CloseApproachEntry)
       (e : CloseApproachEntry),
       calculate_impact_energy { r with close_approach_data := l1 ++ [e] } density =
         calculate_impact_energy { r with close_approach_data := l2 ++ [e] } density) ∧
    (∃ rep, calculate_impact_energy MOCK_ASTEROID_DATA 3000 = ImpactResult.ok rep ∧
       rep.average_diameter_m = 360 ∧
       rep.average_diameter_m / 2 = 180 ∧
       rep.relative_velocity_km_s = 7.42 ∧
       |rep.calculated_mass_kg - 7.33e10| < 5e7 ∧
       |rep.kinetic_energy_joules - 2.02e18| < 5e15 ∧
       |rep.impact_energy_megatons_tnt - 482.5| < 0.5 ∧
       rep.interpretation =
         "Devastating impact event, comparable to large scale nuclear war scenarios. Mitigation is critical.") := by
  have hπ1 := Real.pi_gt_d6
  have hπ2 := Real.pi_lt_d6
  refine ⟨?_, ?_, ?_⟩
  · intro r ed ca rv density min_d max_d vel h1 h2 h3 h4 h5 h6
    exact calculate_ok r ed ca rv density min_d max_d vel h1 h2 h3 h4 h5 h6
  · intro r density l1 l2 e
    unfold calculate_impact_energy calculate_impact_energy_body
    dsimp only
    simp only [List.getLast?_concat]
  · refine ⟨spec_report MOCK_ASTEROID_DATA 3000 320.0 400.0 7.42,
      calculate_ok MOCK_ASTEROID_DATA _ _ _ 3000 320.0 400.0 7.42 rfl rfl rfl rfl rfl rfl,
      ?_, ?_, ?_, ?_, ?_, ?_, ?_⟩
    · simp only [spec_report]
      norm_num
    · simp only [spec_report]
      norm_num
    · rfl
    · simp only [spec_report]
      have hmass : (3000:ℝ) * (4 / 3) * Real.pi * ((320.0 + 400.0) / 2 / 2) ^ 3 =
          23328000000 * Real.pi := by
        norm_num
        ring
      rw [hmass, abs_lt]
      constructor <;> nlinarith
    · simp only [spec_report]
      have hke : (0.5:ℝ) * (3000 * (4 / 3) * Real.pi * ((320.0 + 400.0) / 2 / 2) ^ 3) *
          (7.42 * 1000) ^ 2 = 642177849600000000 * Real.pi := by
        norm_num
        ring
      rw [hke, abs_lt]
      constructor <;> nlinarith
    · simp only [spec_report]
      have hke : (0.5:ℝ) * (3000 * (4 / 3) * Real.pi * ((320.0 + 400.0) / 2 / 2) ^ 3) *
          (7.42 * 1000) ^ 2 = 642177849600000000 * Real.pi := by
        norm_num
        ring
      rw [hke]
      have hJ : JOULES_PER_MEGATON = 4.184e15 := rfl
      rw [hJ]
      have hlo : (482:ℝ) < 642177849600000000 * Real.pi / 4.184e15 := by
        rw [lt_div_iff₀ (by norm_num : (0:ℝ) < 4.184e15)]
        nlinarith
      have hhi : 642177849600000000 * Real.pi / 4.184e15 < (482.2:ℝ) := by
        rw [div_lt_iff₀ (by norm_num : (0:ℝ) < 4.184e15)]
        nlinarith
      rw [abs_lt]
      constructor <;> linarith
    · simp only [spec_report]
      have hke : (0.5:ℝ) * (3000 * (4 / 3) * Real.pi * ((320.0 + 400.0) / 2 / 2) ^ 3) *
          (7.42 * 1000) ^ 2 = 642177849600000000 * Real.pi := by
        norm_num
        ring
      have hJ : JOULES_PER_MEGATON = 4.184e15 := rfl
      have hdev : (100:ℝ) <
          0.5 * (3000 * (4 / 3) * Real.pi * ((320.0 + 400.0) / 2 / 2) ^ 3) *
            (7.42 * 1000) ^ 2 / JOULES_PER_MEGATON := by
        rw [hke, hJ, lt_div_iff₀ (by norm_num : (0:ℝ) < 4.184e15)]
        nlinarith
      unfold interpretation_of
      rw [if_pos hdev]

/-- Witness for C1: the formula theorem applied to the mock Apophis record
at density 3000, with every structural hypothesis discharged by `rfl`. -/
theorem calculate_impact_energy_spec_witness :
    MOCK_ASTEROID_DATA.estimated_diameter = some
      { estimated_diameter_min := some (FieldVal.num 320.0),
        estimated_diameter_max := some (FieldVal.num 400.0) } ∧
    calculate_impact_energy MOCK_ASTEROID_DATA 3000 =
      ImpactResult.ok (spec_report MOCK_ASTEROID_DATA 3000 320.0 400.0 7.42) :=
  ⟨rfl, calculate_impact_energy_spec.1 MOCK_ASTEROID_DATA _ _ _ 3000 320.0 400.0 7.42
    rfl rfl rfl rfl rfl rfl⟩

/-- Claim C4: the identifiers `99942 Apophis`, `99942 APOPHIS`,
`(99942 Apophis)` and the catalog id `2000042` all resolve to the same
Apophis record, while `nonexistent-xyz` resolves to `none`. -/
theorem lookup_equivalence_classes :
    find_mock_asteroid_data "99942 Apophis" = some MOCK_ASTEROID_DATA ∧
    find_mock_asteroid_data "99942 APOPHIS" = some MOCK_ASTEROID_DATA ∧
    find_mock_asteroid_data "(99942 Apophis)" = some MOCK_ASTEROID_DATA ∧
    find_mock_asteroid_data "2000042" = some MOCK_ASTEROID_DATA ∧
    find_mock_asteroid_data "nonexistent-xyz" = none :=
  ⟨rfl, rfl, rfl, rfl, rfl⟩

/-- Claim C3: a resolved record whose diameter dictionary, diameter fields
or velocity fields are absent, whose numeric fields (diameter or
close-approach velocity) hold non-numeric content, or whose close-approach
sequence is empty makes `calculate_impact_energy` return the structured
error value (the `error` case carrying a human-readable message, the
`{"error": msg}` dictionary of the source) rather than propagate a fault;
the embedding is total, so no other outcome exists. -/
theorem malformed_record_yields_error :
    ∀ (r : AsteroidRecord) (d : ℝ),
      (r.estimated_diameter = none ∨
       (∃ ed, r.estimated_diameter = some ed ∧
         (ed.estimated_diameter_min = none ∨
          (∃ s, ed.estimated_diameter_min = some (FieldVal.nonNum s)) ∨
          ed.estimated_diameter_max = none ∨
          (∃ s, ed.estimated_diameter_max = some (FieldVal.nonNum s)))) ∨
       (∃ ca, r.close_approach_data.getLast? = some ca ∧
         (ca.relative_velocity = none ∨
          (∃ rv, ca.relative_velocity = some rv ∧
            (rv.kilometers_per_second = none ∨
             (∃ s, rv.kilometers_per_second = some (FieldVal.nonNum s)))))) ∨
       r.close_approach_data = []) →
      ∃ msg, calculate_impact_energy r d = ImpactResult.error msg := by
  intro r d h
  unfold calculate_impact_energy calculate_impact_energy_body
  rcases h with h | ⟨ed, hed, hcase⟩ | ⟨ca, hca, hvel⟩ | h
  · simp only [h]
    exact ⟨_, rfl⟩
  · rcases hcase with h1 | ⟨s, h1⟩ | h1 | ⟨s, h1⟩
    · simp only [hed, h1]
      exact ⟨_, rfl⟩
    · simp only [hed, h1]
      exact ⟨_, rfl⟩
    · cases hmin : ed.estimated_diameter_min with
      | none =>
        simp only [hed, hmin]
        exact ⟨_, rfl⟩
      | some fv =>
        cases fv with
        | nonNum s2 =>
          simp only [hed, hmin]
          exact ⟨_, rfl⟩
        | num x =>
          simp only [hed, hmin, h1]
          exact ⟨_, rfl⟩
    · cases hmin : ed.estimated_diameter_min with
      | none =>
        simp only [hed, hmin]
        exact ⟨_, rfl⟩
      | some fv =>
        cases fv with
        | nonNum s2 =>
          simp only [hed, hmin]
          exact ⟨_, rfl⟩
        | num x =>
          simp only [hed, hmin, h1]
          exact ⟨_, rfl⟩
  · cases hed : r.estimated_diameter with
    | none =>
      simp only [hed]
      exact ⟨_, rfl⟩
    | some ed =>
      cases hmin : ed.estimated_diameter_min with
      | none =>
        simp only [hed, hmin]
        exact ⟨_, rfl⟩
      | some fv =>
        cases fv with
        | nonNum s2 =>
          simp only [hed, hmin]
          exact ⟨_, rfl⟩
        | num x =>
          cases hmax : ed.estimated_diameter_max with
          | none =>
            simp only [hed, hmin, hmax]
            exact ⟨_, rfl⟩
          | some fv2 =>
            cases fv2 with
            | nonNum s3 =>
              simp only [hed, hmin, hmax]
              exact ⟨_, rfl⟩
            | num y =>
              rcases hvel with hrv | ⟨rv, hrv, hk⟩
              · simp only [hed, hmin, hmax, hca, hrv]
                exact ⟨_, rfl⟩
              · rcases hk with hk | ⟨s4, hk⟩
                · simp only [hed, hmin, hmax, hca, hrv, hk]
                  exact ⟨_, rfl⟩
                · simp only [hed, hmin, hmax, hca, hrv, hk]
                  exact ⟨_, rfl⟩
  · cases hed : r.estimated_diameter with
    | none =>
      simp only [hed]
      exact ⟨_, rfl⟩
    | some ed =>
      cases hmin : ed.estimated_diameter_min with
      | none =>
        simp only [hed, hmin]
        exact ⟨_, rfl⟩
      | some fv =>
        cases fv with
        | nonNum s2 =>
          simp only [hed, hmin]
          exact ⟨_, rfl⟩
        | num x =>
          cases hmax : ed.estimated_diameter_max with
          | none =>
            simp only [hed, hmin, hmax]
            exact ⟨_, rfl⟩
          | some fv2 =>
            cases fv2 with
            | nonNum s3 =>
              simp only [hed, hmin, hmax]
              exact ⟨_, rfl⟩
            | num y =>
              simp only [hed, hmin, hmax, h, List.getLast?_nil]
              exact ⟨_, rfl⟩

/-- Witness for C3: a record with no diameter dictionary produces the
structured error, and so does a record with valid diameters whose
close-approach velocity holds non-numeric content. -/
theorem malformed_record_yields_error_witness :
    (({ name := none, neo_reference_id := "", is_potentially_hazardous_asteroid := none,
        estimated_diameter := none, close_approach_data := [] } :
          AsteroidRecord).estimated_diameter = none) ∧
    (∃ msg, calculate_impact_energy
      { name := none, neo_reference_id := "", is_potentially_hazardous_asteroid := none,
        estimated_diameter := none, close_approach_data := [] } 3000 =
      ImpactResult.error msg) ∧
    (∃ msg, calculate_impact_energy
      { name := none, neo_reference_id := "", is_potentially_hazardous_asteroid := none,
        estimated_diameter := some
          { estimated_diameter_min := some (FieldVal.num 320.0),
            estimated_diameter_max := some (FieldVal.num 400.0) },
        close_approach_data :=
          [{ relative_velocity := some
               { kilometers_per_second := some (FieldVal.nonNum "not a number") },
             miss_distance_kilometers := none }] } 3000 =
      ImpactResult.error msg) :=
  ⟨rfl, malformed_record_yields_error _ 3000 (Or.inl rfl),
   malformed_record_yields_error _ 3000
     (Or.inr (Or.inr (Or.inl ⟨_, rfl, Or.inr ⟨_, rfl, Or.inr ⟨"not a number", rfl⟩⟩⟩)))⟩

/-- Claim C8: the route's density fallback: the `Rocky` preset is 3000 and
a request whose density value is absent or unparsable (`none` here, the
`TypeError`/`ValueError` branch of the source) behaves exactly as one that
supplied the default density. -/
theorem density_fallback_default :
    DENSITIES.lookup "Rocky" = some DEFAULT_DENSITY ∧
    DEFAULT_DENSITY = 3000 ∧
    ∀ asteroid_name : String,
      calculate_impact_route asteroid_name none =
        calculate_impact_route asteroid_name (some DEFAULT_DENSITY) :=
  ⟨rfl, rfl, fun _ => rfl⟩

/-- Claim C9: `calculate_impact_energy` does not validate positivity of the
density: every well-formed record yields a normal report for every real
density, and with density at most 0 and positive radius and velocity the
megaton energy is at most 0, so the interpretation is the `Smaller impact`
label. -/
theorem density_not_validated :
    (∀ (r : AsteroidRecord) (ed : EstimatedDiameterMeters) (ca : CloseApproachEntry)
       (rv : RelativeVelocity) (density min_d max_d vel : ℝ),
       r.estimated_diameter = some ed →
       ed.estimated_diameter_min = some (FieldVal.num min_d) →
       ed.estimated_diameter_max = some (FieldVal.num max_d) →
       r.close_approach_data.getLast? = some ca →
       ca.relative_velocity = some rv →
       rv.kilometers_per_second = some (FieldVal.num vel) →
       ∃ rep, calculate_impact_energy r density = ImpactResult.ok rep) ∧
    (∀ (r : AsteroidRecord) (ed : EstimatedDiameterMeters) (ca : CloseApproachEntry)
       (rv : RelativeVelocity) (density min_d max_d vel : ℝ),
       r.estimated_diameter = some ed →
       ed.estimated_diameter_min = some (FieldVal.num min_d) →
       ed.estimated_diameter_max = some (FieldVal.num max_d) →
       r.close_approach_data.getLast? = some ca →
       ca.relative_velocity = some rv →
       rv.kilometers_per_second = some (FieldVal.num vel) →
       density ≤ 0 → 0 < (min_d + max_d) / 2 / 2 → 0 < vel →
       ∃ rep, calculate_impact_energy r density = ImpactResult.ok rep ∧
         rep.impact_energy_megatons_tnt ≤ 0 ∧
         rep.interpretation =
           "Smaller impact, likely resulting in localized damage or an atmospheric explosion (airburst).") := by
  constructor
  · intro r ed ca rv density min_d max_d vel h1 h2 h3 h4 h5 h6
    exact ⟨_, calculate_ok r ed ca rv density min_d max_d vel h1 h2 h3 h4 h5 h6⟩
  · intro r ed ca rv density min_d max_d vel h1 h2 h3 h4 h5 h6 hden hrad hvel
    refine ⟨spec_report r density min_d max_d vel,
      calculate_ok r ed ca rv density min_d max_d vel h1 h2 h3 h4 h5 h6, ?_, ?_⟩
    all_goals simp only [spec_report]
    · have hpos : 0 < (4 / 3) * Real.pi * ((min_d + max_d) / 2 / 2) ^ 3 := by positivity
      have hmass : density * (4 / 3) * Real.pi * ((min_d + max_d) / 2 / 2) ^ 3 ≤ 0 := by
        nlinarith
      have hke : 0.5 * (density * (4 / 3) * Real.pi * ((min_d + max_d) / 2 / 2) ^ 3) *
          (vel * 1000) ^ 2 ≤ 0 := by
        nlinarith [sq_nonneg (vel * 1000)]
      have hJ : (0:ℝ) < JOULES_PER_MEGATON := by norm_num [JOULES_PER_MEGATON]
      exact div_nonpos_of_nonpos_of_nonneg hke hJ.le
    · have hpos : 0 < (4 / 3) * Real.pi * ((min_d + max_d) / 2 / 2) ^ 3 := by positivity
      have hmass : density * (4 / 3) * Real.pi * ((min_d + max_d) / 2 / 2) ^ 3 ≤ 0 := by
        nlinarith
      have hke : 0.5 * (density * (4 / 3) * Real.pi * ((min_d + max_d) / 2 / 2) ^ 3) *
          (vel * 1000) ^ 2 ≤ 0 := by
        nlinarith [sq_nonneg (vel * 1000)]
      have hJ : (0:ℝ) < JOULES_PER_MEGATON := by norm_num [JOULES_PER_MEGATON]
      have hmt : 0.5 * (density * (4 / 3) * Real.pi * ((min_d + max_d) / 2 / 2) ^ 3) *
          (vel * 1000) ^ 2 / JOULES_PER_MEGATON ≤ 0 :=
        div_nonpos_of_nonpos_of_nonneg hke hJ.le
      unfold interpretation_of
      rw [if_neg (not_lt.mpr (by linarith)), if_neg (not_lt.mpr (by linarith)),
        if_neg (not_lt.mpr (by linarith))]

/-- Witness for C9: the mock record at density 0 yields a report with
non-positive megaton energy and the `Smaller impact` label. -/
theorem density_not_validated_witness :
    (0:ℝ) ≤ 0 ∧ (0:ℝ) < (320.0 + 400.0) / 2 / 2 ∧ (0:ℝ) < 7.42 ∧
    (∃ rep, calculate_impact_energy MOCK_ASTEROID_DATA 0 = ImpactResult.ok rep ∧
      rep.impact_energy_megatons_tnt ≤ 0 ∧
      rep.interpretation =
        "Smaller impact, likely resulting in localized damage or an atmospheric explosion (airburst).") :=
  ⟨le_refl 0, by norm_num, by norm_num,
   density_not_validated.2 MOCK_ASTEROID_DATA _ _ _ 0 320.0 400.0 7.42
     rfl rfl rfl rfl rfl rfl (le_refl 0) (by norm_num) (by norm_num)⟩

/-- Claim C10: a record lacking the `name` key or the hazard flag still
yields a full report, with the `N/A` default name and hazard flag false. -/
theorem missing_name_and_hazard_defaults :
    ∀ (r : AsteroidRecord) (ed : EstimatedDiameterMeters) (ca : CloseApproachEntry)
      (rv : RelativeVelocity) (density min_d max_d vel : ℝ),
      r.estimated_diameter = some ed →
      ed.estimated_diameter_min = some (FieldVal.num min_d) →
      ed.estimated_diameter_max = some (FieldVal.num max_d) →
      r.close_approach_data.getLast? = some ca →
      ca.relative_velocity = some rv →
      rv.kilometers_per_second = some (FieldVal.num vel) →
      r.name = none →
      r.is_potentially_hazardous_asteroid = none →
      ∃ rep, calculate_impact_energy r density = ImpactResult.ok rep ∧
        rep.name = "N/A" ∧ rep.is_potentially_hazardous = false := by
  intro r ed ca rv density min_d max_d vel h1 h2 h3 h4 h5 h6 hname hhaz
  refine ⟨spec_report r density min_d max_d vel,
    calculate_ok r ed ca rv density min_d max_d vel h1 h2 h3 h4 h5 h6, ?_, ?_⟩
  · simp only [spec_report]
    rw [hname]
    rfl
  · simp only [spec_report]
    rw [hhaz]
    rfl

/-- Witness for C10: the mock record stripped of its `name` and hazard keys
still computes, defaulting the name to `N/A` and the flag to false. -/
theorem missing_name_and_hazard_defaults_witness :
    ∃ rep, calculate_impact_energy
      { name := none, neo_reference_id := "2000042",
        is_potentially_hazardous_asteroid := none,
        estimated_diameter := some
          { estimated_diameter_min := some (FieldVal.num 320.0),
            estimated_diameter_max := some (FieldVal.num 400.0) },
        close_approach_data :=
          [{ relative_velocity := some { kilometers_per_second := some (FieldVal.num 7.42) },
             miss_distance_kilometers := some (FieldVal.num 31000.0) }] } 3000 =
      ImpactResult.ok rep ∧
      rep.name = "N/A" ∧ rep.is_potentially_hazardous = false :=
  missing_name_and_hazard_defaults _ _ _ _ 3000 320.0 400.0 7.42
    rfl rfl rfl rfl rfl rfl rfl rfl

/-- Claim C7: for a fixed well-formed record with positive diameter bounds
and positive last-approach velocity, the kinetic energy and the megaton
energy computed by `calculate_impact_energy` are strictly increasing in
the density, and the severity band index is non-decreasing in the
density. -/
theorem energy_monotone_in_density :
    ∀ (r : AsteroidRecord) (ed : EstimatedDiameterMeters) (ca : CloseApproachEntry)
      (rv : RelativeVelocity) (min_d max_d vel : ℝ),
      r.estimated_diameter = some ed →
      ed.estimated_diameter_min = some (FieldVal.num min_d) →
      ed.estimated_diameter_max = some (FieldVal.num max_d) →
      r.close_approach_data.getLast? = some ca →
      ca.relative_velocity = some rv →
      rv.kilometers_per_second = some (FieldVal.num vel) →
      0 < min_d → 0 < max_d → 0 < vel →
      ∀ d1 d2 : ℝ, d1 < d2 →
      ∃ rep1 rep2,
        calculate_impact_energy r d1 = ImpactResult.ok rep1 ∧
        calculate_impact_energy r d2 = ImpactResult.ok rep2 ∧
        rep1.kinetic_energy_joules < rep2.kinetic_energy_joules ∧
        rep1.impact_energy_megatons_tnt < rep2.impact_energy_megatons_tnt ∧
        severityBand rep1.impact_energy_megatons_tnt ≤
          severityBand rep2.impact_energy_megatons_tnt := by
  intro r ed ca rv min_d max_d vel h1 h2 h3 h4 h5 h6 hmin hmax hvel d1 d2 hd
  have hR : 0 < (min_d + max_d) / 2 / 2 := by linarith
  have hR3 : 0 < ((min_d + max_d) / 2 / 2) ^ 3 := pow_pos hR 3
  have hV2 : 0 < (vel * 1000) ^ 2 := pow_pos (by linarith) 2
  have hC : 0 < 0.5 * ((4 / 3) * Real.pi * ((min_d + max_d) / 2 / 2) ^ 3) *
      (vel * 1000) ^ 2 :=
    mul_pos (mul_pos (by norm_num)
      (mul_pos (mul_pos (by norm_num) Real.pi_pos) hR3)) hV2
  have key : ∀ d : ℝ, 0.5 * (d * (4 / 3) * Real.pi * ((min_d + max_d) / 2 / 2) ^ 3) *
      (vel * 1000) ^ 2 =
      d * (0.5 * ((4 / 3) * Real.pi * ((min_d + max_d) / 2 / 2) ^ 3) * (vel * 1000) ^ 2) := by
    intro d
    ring
  have hke : 0.5 * (d1 * (4 / 3) * Real.pi * ((min_d + max_d) / 2 / 2) ^ 3) *
      (vel * 1000) ^ 2 <
      0.5 * (d2 * (4 / 3) * Real.pi * ((min_d + max_d) / 2 / 2) ^ 3) * (vel * 1000) ^ 2 := by
    rw [key d1, key d2]
    exact mul_lt_mul_of_pos_right hd hC
  have hJ : (0:ℝ) < JOULES_PER_MEGATON := by norm_num [JOULES_PER_MEGATON]
  have hmt : 0.5 * (d1 * (4 / 3) * Real.pi * ((min_d + max_d) / 2 / 2) ^ 3) *
      (vel * 1000) ^ 2 / JOULES_PER_MEGATON <
      0.5 * (d2 * (4 / 3) * Real.pi * ((min_d + max_d) / 2 / 2) ^ 3) *
      (vel * 1000) ^ 2 / JOULES_PER_MEGATON := by
    rw [div_eq_mul_inv, div_eq_mul_inv]
    exact mul_lt_mul_of_pos_right hke (inv_pos.mpr hJ)
  refine ⟨spec_report r d1 min_d max_d vel, spec_report r d2 min_d max_d vel,
    calculate_ok r ed ca rv d1 min_d max_d vel h1 h2 h3 h4 h5 h6,
    calculate_ok r ed ca rv d2 min_d max_d vel h1 h2 h3 h4 h5 h6, ?_, ?_, ?_⟩
  · simp only [spec_report]
    exact hke
  · simp only [spec_report]
    exact hmt
  · simp only [spec_report]
    exact severityBand_mono hmt.le

/-- Witness for C7: on the mock record, raising the density from the
carbonaceous preset 1300 to the rocky preset 3000 strictly raises both
energies and does not lower the band. -/
theorem energy_monotone_in_density_witness :
    (0:ℝ) < 320.0 ∧ (0:ℝ) < 400.0 ∧ (0:ℝ) < 7.42 ∧ (1300:ℝ) < 3000 ∧
    ∃ rep1 rep2,
      calculate_impact_energy MOCK_ASTEROID_DATA 1300 = ImpactResult.ok rep1 ∧
      calculate_impact_energy MOCK_ASTEROID_DATA 3000 = ImpactResult.ok rep2 ∧
      rep1.kinetic_energy_joules < rep2.kinetic_energy_joules ∧
      rep1.impact_energy_megatons_tnt < rep2.impact_energy_megatons_tnt ∧
      severityBand rep1.impact_energy_megatons_tnt ≤
        severityBand rep2.impact_energy_megatons_tnt :=
  ⟨by norm_num, by norm_num, by norm_num, by norm_num,
   energy_monotone_in_density MOCK_ASTEROID_DATA _ _ _ 320.0 400.0 7.42
     rfl rfl rfl rfl rfl rfl (by norm_num) (by norm_num) (by norm_num)
     1300 3000 (by norm_num)⟩

/-- Any error the calculator returns carries the fixed wrapper text of the
except-branch. -/
theorem calculate_error_shape (r : AsteroidRecord) (d : ℝ) (msg : String)
    (h : calculate_impact_energy r d = ImpactResult.error msg) :
    ∃ e, msg = calculation_error_message e := by
  unfold calculate_impact_energy at h
  cases hb : calculate_impact_energy_body r d with
  | ok rep =>
    rw [hb] at h
    exact ImpactResult.noConfusion h
  | error e =>
    rw [hb] at h
    injection h with h
    exact ⟨e, h.symm⟩

/-- The not-found message never coincides with a calculation error
message: the two texts already differ at their second character. -/
theorem messages_disjoint (n e : String) :
    not_found_message n ≠ calculation_error_message e := by
  intro h
  have hd : (not_found_message n).data = (calculation_error_message e).data := by rw [h]
  have hd2 : ('A' :: 's' ::
        (("teroid '" : String).data ++ n.data ++
          ("' not found. Try '99942 Apophis'." : String).data)) =
      ('A' :: 'n' ::
        ((" unexpected error occurred during calculation: " : String).data ++ e.data)) := hd
  injection hd2 with h1 hd3
  injection hd3 with hd4 hd5
  exact absurd hd4 (by decide)

/-- Claim C6: the route's not-found outcome for an unknown identifier and
the calculator's computation-error outcome are non-overlapping error
values: whenever the route reports an unknown identifier and the
calculator reports a failed computation, the two messages differ. -/
theorem error_shapes_disjoint :
    ∀ (asteroid_name : String) (dp : Option ℝ) (r : AsteroidRecord) (d : ℝ)
      (m1 m2 : String),
      find_mock_asteroid_data asteroid_name = none →
      calculate_impact_route asteroid_name dp = ImpactResult.error m1 →
      calculate_impact_energy r d = ImpactResult.error m2 →
      m1 ≠ m2 := by
  intro nm dp r d m1 m2 hfind hroute hcalc
  unfold calculate_impact_route at hroute
  simp only [hfind] at hroute
  injection hroute with hroute
  obtain ⟨e, he⟩ := calculate_error_shape r d m2 hcalc
  rw [← hroute, he]
  exact messages_disjoint nm e

/-- Witness for C6: the unknown identifier `nonexistent-xyz` against a
record whose computation fails on a missing diameter dictionary. -/
theorem error_shapes_disjoint_witness :
    find_mock_asteroid_data "nonexistent-xyz" = none ∧
    calculate_impact_route "nonexistent-xyz" none =
      ImpactResult.error (not_found_message "nonexistent-xyz") ∧
    calculate_impact_energy
      { name := none, neo_reference_id := "", is_potentially_hazardous_asteroid := none,
        estimated_diameter := none, close_approach_data := [] } 0 =
      ImpactResult.error (calculation_error_message "KeyError: estimated_diameter") ∧
    not_found_message "nonexistent-xyz" ≠
      calculation_error_message "KeyError: estimated_diameter" :=
  ⟨rfl, rfl, rfl,
   error_shapes_disjoint "nonexistent-xyz" none
     { name := none, neo_reference_id := "", is_potentially_hazardous_asteroid := none,
       estimated_diameter := none, close_approach_data := [] } 0 _ _ rfl rfl rfl⟩

/-- A map that fixes every element of a list leaves the list unchanged. -/
theorem map_eq_self_of {f : Char → Char} {l : List Char}
    (h : ∀ a ∈ l, f a = a) : l.map f = l := by
  induction l with
  | nil => rfl
  | cons a t ih =>
    rw [List.map_cons, h a (List.mem_cons_self a t),
      ih (fun b hb => h b (List.mem_cons_of_mem a hb))]

/-- Membership is preserved by `py_strip`. -/
theorem mem_py_strip {a : Char} {l : List Char} (h : a ∈ py_strip l) : a ∈ l := by
  unfold py_strip at h
  rw [List.mem_reverse] at h
  have h2 := (List.dropWhile_sublist _).mem h
  rw [List.mem_reverse] at h2
  exact (List.dropWhile_sublist _).mem h2

/-- Every character of a normalized identifier is fixed by upper-casing,
is no parenthesis and is no hyphen. -/
theorem normalize_name_chars (s : String) :
    ∀ c ∈ (normalize_name s).data,
      Char.toUpper c = c ∧ c ≠ '(' ∧ c ≠ ')' ∧ c ≠ '-' := by
  intro c hc
  have hc2 : c ∈ replace_char '-' ' '
      (remove_char ')' (remove_char '(' (py_upper (py_strip s.data)))) := hc
  simp only [replace_char, remove_char, py_upper, List.mem_map, List.mem_filter,
    bne_iff_ne, ne_eq] at hc2
  obtain ⟨b, ⟨⟨⟨a, ha, hab⟩, hbl⟩, hbr⟩, hbc⟩ := hc2
  by_cases hdash : b = '-'
  · rw [hdash] at hbc
    simp only [if_pos rfl] at hbc
    rw [← hbc]
    refine ⟨by decide, by decide, by decide, by decide⟩
  · rw [if_neg hdash] at hbc
    subst hbc
    refine ⟨?_, hbl, hbr, hdash⟩
    rw [← hab]
    exact toUpper_toUpper a

/-- On a list whose characters are all upper-case-fixed and free of
parentheses and hyphens, the normalization pipeline only strips
whitespace. -/
theorem normalize_fixed (l : List Char)
    (h : ∀ c ∈ l, Char.toUpper c = c ∧ c ≠ '(' ∧ c ≠ ')' ∧ c ≠ '-') :
    replace_char '-' ' ' (remove_char ')' (remove_char '(' (py_upper (py_strip l)))) =
      py_strip l := by
  have hs : ∀ c ∈ py_strip l, Char.toUpper c = c ∧ c ≠ '(' ∧ c ≠ ')' ∧ c ≠ '-' :=
    fun c hc => h c (mem_py_strip hc)
  have h1 : py_upper (py_strip l) = py_strip l :=
    map_eq_self_of (fun a ha => (hs a ha).1)
  rw [h1]
  have h2 : remove_char '(' (py_strip l) = py_strip l := by
    unfold remove_char
    rw [List.filter_eq_self]
    intro a ha
    simpa [bne_iff_ne] using (hs a ha).2.1
  rw [h2]
  have h3 : remove_char ')' (py_strip l) = py_strip l := by
    unfold remove_char
    rw [List.filter_eq_self]
    intro a ha
    simpa [bne_iff_ne] using (hs a ha).2.2.1
  rw [h3]
  exact map_eq_self_of (fun a ha => if_neg (hs a ha).2.2.2)

/-- Counterexample to C5 as stated: normalizing the string consisting of
one hyphen yields one space, and normalizing that again yields the empty
string, so normalization is not idempotent on every input. -/
theorem normalize_name_not_idempotent :
    normalize_name (normalize_name "-") ≠ normalize_name "-" := by decide

/-- Claim C5 (amended): a second normalization pass only strips leading
and trailing whitespace from the first pass's output (which can be
non-trivial, since replacing a hyphen by a space can leave whitespace at
the ends); consequently normalization is idempotent on exactly those
inputs whose normalized form carries no leading or trailing whitespace. -/
theorem normalize_name_idempotent_on_trimmed (x : String) :
    normalize_name (normalize_name x) = String.mk (py_strip (normalize_name x).data) ∧
    (py_strip (normalize_name x).data = (normalize_name x).data →
      normalize_name (normalize_name x) = normalize_name x) := by
  have hfix := normalize_fixed (normalize_name x).data (normalize_name_chars x)
  have hmain : normalize_name (normalize_name x) =
      String.mk (py_strip (normalize_name x).data) := by
    show String.mk (replace_char '-' ' ' (remove_char ')'
        (remove_char '(' (py_upper (py_strip (normalize_name x).data))))) =
      String.mk (py_strip (normalize_name x).data)
    rw [hfix]
  refine ⟨hmain, fun htrim => ?_⟩
  rw [hmain, htrim]

/-- Witness for the amended C5: an identifier whose normalized form is
already trimmed, on which normalization is idempotent. -/
theorem normalize_name_idempotent_on_trimmed_witness :
    py_strip (normalize_name "(99942 Apophis)").data =
      (normalize_name "(99942 Apophis)").data ∧
    normalize_name (normalize_name "(99942 Apophis)") =
      normalize_name "(99942 Apophis)" :=
  ⟨rfl, (normalize_name_idempotent_on_trimmed "(99942 Apophis)").2 rfl⟩

end NasaImpact
